import Mathlib

/-!
Formal model of the SEO Audit Gateway (a Cloudflare Worker fronting a D1
database, an R2 bucket and per-job crawler containers).

The model is a shallow embedding of the worker's job orchestration,
result-ingestion and query-gateway logic:

* the D1 tables (schema.sql: crawl_jobs, page_audits, site_issues,
  site_summaries) become Lean structures and lists of rows;
* the shared business-logic functions of the MCP worker
  (submitCrawl, pollJob, listJobs, getJob, getPages, queryDb,
  ingestResults) and the standalone REST worker's handlers
  (handleSubmitCrawl, handleListJobs, handleGetPages, handleQuery)
  become pure Lean functions over an explicit store state;
* network effects (the container start/status calls, R2 puts) become
  explicit outcome parameters, and JavaScript exceptions become Except /
  Option results threaded together with the store state reached at the
  point of the throw (D1 writes already awaited are not rolled back);
* JavaScript string primitives used by the code (trim, toUpperCase,
  startsWith) are modelled by structurally recursive char-list functions
  so that every definition evaluates by kernel reduction.

All definitions are translated from the TypeScript source; divergences
between the two transport variants are modelled as separate functions.
-/

deriving instance DecidableEq for Except

namespace SeoAudit

/-- JavaScript String.prototype.toUpperCase restricted to the character
mapping of Char.toUpper (ASCII-faithful, which covers every SQL keyword
the query gateway tests for). -/
def jsToUpperCase (s : String) : String := ⟨s.data.map Char.toUpper⟩

/-- JavaScript String.prototype.trim: drop leading and trailing
whitespace. -/
def jsTrim (s : String) : String :=
  ⟨((s.data.dropWhile Char.isWhitespace).reverse.dropWhile Char.isWhitespace).reverse⟩

/-- JavaScript String.prototype.startsWith. -/
def strStartsWith (s kw : String) : Bool := kw.data.isPrefixOf s.data

/-- Occurrence of a pattern as a contiguous substring of a char list. -/
def chHasSub (pat : List Char) : List Char → Bool
  | [] => pat.isEmpty
  | c :: rest => pat.isPrefixOf (c :: rest) || chHasSub pat rest

/-- Containment of one string in another (used to state whether an error
message mentions a job id). -/
def strContainsSub (s sub : String) : Bool := chHasSub sub.data s.data

/-- Lexicographic comparison on char lists (SQLite ORDER BY on TEXT). -/
def chLe : List Char → List Char → Bool
  | [], _ => true
  | _ :: _, [] => false
  | a :: as, b :: bs => if a = b then chLe as bs else decide (a < b)

/-- String order used by ORDER BY url. -/
def strLe (a b : String) : Bool := chLe a.data b.data

/-- Stable insertion used by the sort below. -/
def insertLe (le : α → α → Bool) (x : α) : List α → List α
  | [] => [x]
  | y :: ys => if le x y then x :: y :: ys else y :: insertLe le x ys

/-- Insertion sort, modelling a SQL ORDER BY clause. -/
def sortLe (le : α → α → Bool) : List α → List α
  | [] => []
  | x :: xs => insertLe le x (sortLe le xs)

/-- JavaScript `a || d` for an optional number argument: 0 (falsy) and a
missing argument both fall back to the default. -/
def jsOrInt (o : Option Int) (d : Int) : Int :=
  match o with
  | none => d
  | some v => if v == 0 then d else v

/-- SQLite LIMIT: a negative limit means no limit. -/
def sqlLimit (lim : Int) (xs : List α) : List α :=
  if lim < 0 then xs else xs.take lim.toNat

/-- Truthiness of `o?.length` in JavaScript: present and non-empty. -/
def listTruthy (o : Option (List α)) : Bool :=
  match o with
  | none => false
  | some xs => !xs.isEmpty

/-- Row of the crawl_jobs table (schema.sql). Timestamps are logical
instants (datetime(now) is modelled by a clock argument to each
operation). -/
structure Job where
  id : String
  domain : String
  start_url : String
  config : String
  status : String
  pages_found : Nat
  pages_done : Nat
  score : Option Int
  error : Option String
  created_at : Nat
  started_at : Option Nat
  completed_at : Option Nat
deriving DecidableEq

/-- Row of the page_audits table (schema.sql). Boolean 0/1 columns are
modelled as Bool. -/
structure PageAudit where
  id : String
  job_id : String
  url : String
  domain : String
  status_code : Option Int
  title : Option String
  title_length : Option Int
  title_status : Option String
  meta_desc : Option String
  meta_desc_length : Option Int
  meta_desc_status : Option String
  h1_count : Int
  has_canonical : Bool
  is_indexable : Bool
  has_json_ld : Bool
  has_viewport : Bool
  has_og_tags : Bool
  word_count : Int
  images_total : Int
  images_no_alt : Int
  internal_links : Int
  external_links : Int
  mixed_content : Bool
  audit_json : String
  created_at : Nat
deriving DecidableEq

/-- Row of the site_issues table (schema.sql). The affected_urls column
stores a JSON array of URLs; it is modelled as the list itself. -/
structure IssueRow where
  id : String
  job_id : String
  domain : String
  issue_type : String
  severity : String
  description : String
  fix : Option String
  affected_count : Int
  affected_urls : List String
  created_at : Nat
deriving DecidableEq

/-- Row of the site_summaries table (schema.sql). -/
structure SummaryRow where
  id : String
  job_id : String
  domain : String
  pages_audited : Int
  score : Int
  issues_critical : Int
  issues_warning : Int
  issues_info : Int
  audit_json : String
  created_at : Nat
deriving DecidableEq

/-- The D1 database: the four tables, each a list of rows in insertion
order. -/
structure DB where
  jobs : List Job
  page_audits : List PageAudit
  site_issues : List IssueRow
  site_summaries : List SummaryRow
deriving DecidableEq

/-- Whole external state: the database, the R2 snapshot bucket (keyed
key/value pairs), a fresh-id counter standing in for crypto.randomUUID,
and an invocation counter on the ingestion pipeline (the counter stub the
idempotence property is verified against — it has no effect on any other
behaviour). -/
structure Store where
  db : DB
  snapshots : List (String × String)
  nextId : Nat
  ingestCalls : Nat
deriving DecidableEq

/-- Deterministic stand-in for crypto.randomUUID, driven by the store's
fresh-id counter. -/
def uuidOf (n : Nat) : String := "uuid-" ++ toString n

/-- Environment configuration handed to the worker: crawl-size defaults
(MAX_PAGES_DEFAULT / MAX_DEPTH_DEFAULT), the platform's
encodeURIComponent (abstract — no claim depends on the key encoding),
and the R2 put success oracle (key, value ↦ did the put succeed). -/
structure EnvCfg where
  maxPagesDefault : Nat
  maxDepthDefault : Nat
  encodeURIComponent : String → String
  snapPutOk : String → String → Bool

/-- SELECT ... FROM crawl_jobs WHERE id = ? .first() -/
def findJob (db : DB) (jobId : String) : Option Job :=
  db.jobs.find? (fun j => j.id == jobId)

/-- UPDATE crawl_jobs SET ... WHERE id = ? : rewrite every row whose id
matches. -/
def updateJobs (db : DB) (jobId : String) (f : Job → Job) : DB :=
  { db with jobs := db.jobs.map (fun j => if j.id == jobId then f j else j) }

/-- R2 put: later writes to the same key replace earlier ones. -/
def r2put (key val : String) (snaps : List (String × String)) : List (String × String) :=
  (key, val) :: snaps.filter (fun p => p.1 != key)

/-!
Query gateway (queryDb in the MCP worker, handleQuery in the REST
worker; both run the identical read-only guard before handing the SQL to
D1). SQL execution itself is an external capability, modelled as an
oracle producing rows; a row is an ordered list of (column, value) pairs
(Object.keys order). -/

/-- The fixed denylist of mutating keywords. -/
def sqlForbidden : List String :=
  ["INSERT", "UPDATE", "DELETE", "DROP", "ALTER", "CREATE", "REPLACE"]

/-- Shape of a query result: columns derived from the first row's field
set (empty result set ⇒ empty column list). -/
structure QueryResult where
  columns : List String
  rows : List (List (String × String))
deriving DecidableEq

/-- queryDb: normalize (trim, uppercase) and reject any statement that
starts with a denylisted keyword, otherwise execute. The oracle `exec`
models env.DB.prepare(sql).all(). -/
def queryDb (exec : String → List (List (String × String))) (sql : String) :
    Except String QueryResult :=
  let normalized := jsToUpperCase (jsTrim sql)
  if sqlForbidden.any (fun kw => strStartsWith normalized kw) then
    Except.error "Only SELECT queries allowed"
  else
    let results := exec sql
    Except.ok
      { columns := match results.head? with
          | some r => r.map Prod.fst
          | none => []
        rows := results }

/-!
Job listing. -/

/-- JavaScript truthy string filter: an absent (or empty, hence falsy)
parameter disables the equality filter. -/
def strFilter (param : Option String) (field : String) : Bool :=
  match param with
  | none => true
  | some p => if p == "" then true else field == p

/-- The rows matching the WHERE clause of the listing query. -/
def jobsMatching (domain status : Option String) (db : DB) : List Job :=
  db.jobs.filter (fun j => strFilter domain j.domain && strFilter status j.status)

/-- ORDER BY created_at DESC. -/
def jobsSortedDesc (l : List Job) : List Job :=
  sortLe (fun a b => b.created_at ≤ a.created_at) l

/-- Shared business-logic listJobs: Math.min(limit || 20, 100), equality
filters combined with AND, newest first. -/
def listJobs (domain status : Option String) (limit : Option Int) (st : Store) :
    List Job :=
  let maxLimit := min (jsOrInt limit 20) 100
  sqlLimit maxLimit (jobsSortedDesc (jobsMatching domain status st.db))

/-- REST worker handleListJobs: Math.min(parseInt(limitParam || "20"),
100) — a limit parameter of 0 stays 0 here. -/
def handleListJobs (domain status : Option String) (limitParam : Option Int)
    (st : Store) : List Job :=
  let limit := min (limitParam.getD 20) 100
  sqlLimit limit (jobsSortedDesc (jobsMatching domain status st.db))

/-!
Page listing. -/

/-- The problems_only WHERE clause: title_status = fail OR
meta_desc_status = fail OR h1_count = 0 OR has_viewport = 0 OR
mixed_content = 1. -/
def pageHasProblems (p : PageAudit) : Bool :=
  p.title_status == some "fail" || p.meta_desc_status == some "fail" ||
    p.h1_count == 0 || !p.has_viewport || p.mixed_content

/-- Rows matching the page query WHERE clause. -/
def pagesMatching (jobId : String) (problemsOnly : Bool) (db : DB) : List PageAudit :=
  db.page_audits.filter (fun p =>
    p.job_id == jobId && (if problemsOnly then pageHasProblems p else true))

/-- ORDER BY url. -/
def pagesSortedByUrl (l : List PageAudit) : List PageAudit :=
  sortLe (fun a b => strLe a.url b.url) l

/-- Shared business-logic getPages: Math.min(limit || 50, 200) — a
caller-supplied limit of 0 is falsy and falls back to the default 50 —
then ORDER BY url LIMIT maxLimit OFFSET off. A truthy problemsOnly adds
the problems clause. -/
def getPages (jobId : String) (problemsOnly : Option Bool) (limit offset : Option Int)
    (st : Store) : List PageAudit :=
  let maxLimit := min (jsOrInt limit 50) 200
  let off := jsOrInt offset 0
  sqlLimit maxLimit
    ((pagesSortedByUrl (pagesMatching jobId (problemsOnly == some true) st.db)).drop
      off.toNat)

/-- REST worker handleGetPages: Math.min(parseInt(limitParam || "50"),
200) — a limit parameter of 0 stays 0 — plus the count of returned rows.
problems_only must be the literal string "true". -/
def handleGetPages (jobId : String) (problemsOnlyParam : Option String)
    (limitParam offsetParam : Option Int) (st : Store) : List PageAudit × Nat :=
  let limit := min (limitParam.getD 50) 200
  let offset := offsetParam.getD 0
  let pages := sqlLimit limit
    ((pagesSortedByUrl
        (pagesMatching jobId (problemsOnlyParam == some "true") st.db)).drop
      offset.toNat)
  (pages, pages.length)

/-- getJob: the job row plus the site_summaries row when present. -/
def getJob (st : Store) (jobId : String) : Except String (Job × Option SummaryRow) :=
  match findJob st.db jobId with
  | none => Except.error "Job not found"
  | some j => Except.ok (j, st.db.site_summaries.find? (fun s => s.job_id == jobId))

/-!
Ingestion pipeline (ingestResults): terminal container payload types and
the insert/update sequence. -/

/-- One element of results.pages; every field the code reads with ?? or a
truthiness test is optional. -/
structure PageRecord where
  url : String
  status_code : Option Int
  title : Option String
  title_length : Option Int
  title_status : Option String
  meta_desc : Option String
  meta_desc_length : Option Int
  meta_desc_status : Option String
  h1_count : Option Int
  has_canonical : Bool
  is_indexable : Bool
  has_json_ld : Bool
  has_viewport : Bool
  has_og_tags : Bool
  word_count : Option Int
  images_total : Option Int
  images_no_alt : Option Int
  internal_links : Option Int
  external_links : Option Int
  mixed_content : Bool
  audit_json : Option String
deriving DecidableEq

/-- One element of results.issues. -/
structure IssueRecord where
  issue_type : String
  severity : String
  description : String
  fix : Option String
  affected_count : Option Int
  affected_urls : Option (List String)
deriving DecidableEq

/-- results.summary. -/
structure SummaryRecord where
  pages_audited : Option Int
  score : Option Int
  issues_critical : Option Int
  issues_warning : Option Int
  issues_info : Option Int
  audit_json : Option String
deriving DecidableEq

/-- One element of results.snapshots. -/
structure SnapshotRecord where
  url : String
  html : String
deriving DecidableEq

/-- The terminal result payload delivered by the container; all four
sections may be absent. -/
structure Results where
  pages : Option (List PageRecord)
  issues : Option (List IssueRecord)
  summary : Option SummaryRecord
  snapshots : Option (List SnapshotRecord)
deriving DecidableEq

/-- The page_audits row built from one page record (the VALUES tuple of
the batched INSERT, with its ?? defaults and 0/1 conversions). -/
def pageRowOf (rowId jobId domain : String) (now : Nat) (p : PageRecord) : PageAudit :=
  { id := rowId, job_id := jobId, url := p.url, domain := domain
    status_code := p.status_code
    title := p.title, title_length := p.title_length, title_status := p.title_status
    meta_desc := p.meta_desc, meta_desc_length := p.meta_desc_length
    meta_desc_status := p.meta_desc_status
    h1_count := p.h1_count.getD 0
    has_canonical := p.has_canonical, is_indexable := p.is_indexable
    has_json_ld := p.has_json_ld, has_viewport := p.has_viewport
    has_og_tags := p.has_og_tags
    word_count := p.word_count.getD 0, images_total := p.images_total.getD 0
    images_no_alt := p.images_no_alt.getD 0
    internal_links := p.internal_links.getD 0, external_links := p.external_links.getD 0
    mixed_content := p.mixed_content
    audit_json := p.audit_json.getD "\x7b\x7d"
    created_at := now }

/-- The site_issues row built from one issue record. -/
def issueRowOf (rowId jobId domain : String) (now : Nat) (i : IssueRecord) : IssueRow :=
  { id := rowId, job_id := jobId, domain := domain
    issue_type := i.issue_type, severity := i.severity, description := i.description
    fix := i.fix, affected_count := i.affected_count.getD 0
    affected_urls := i.affected_urls.getD []
    created_at := now }

/-- The site_summaries row built from the summary record. -/
def summaryRowOf (rowId jobId domain : String) (now : Nat) (s : SummaryRecord) :
    SummaryRow :=
  { id := rowId, job_id := jobId, domain := domain
    pages_audited := s.pages_audited.getD 0, score := s.score.getD 0
    issues_critical := s.issues_critical.getD 0
    issues_warning := s.issues_warning.getD 0, issues_info := s.issues_info.getD 0
    audit_json := s.audit_json.getD "\x7b\x7d"
    created_at := now }

/-- Step 1 of ingestion: if results.pages?.length, batch-insert one
page_audits row per page record. -/
def ingestPages (jobId domain : String) (results : Results) (now : Nat)
    (st : Store) : Store :=
  if listTruthy results.pages then
    let ps := results.pages.getD []
    let rows := ps.enum.map (fun q => pageRowOf (uuidOf (st.nextId + q.1)) jobId domain now q.2)
    { st with db := { st.db with page_audits := st.db.page_audits ++ rows }
              nextId := st.nextId + ps.length }
  else st

/-- Step 2 of ingestion: if results.issues?.length, batch-insert one
site_issues row per issue record. -/
def ingestIssues (jobId domain : String) (results : Results) (now : Nat)
    (st : Store) : Store :=
  if listTruthy results.issues then
    let is_ := results.issues.getD []
    let rows := is_.enum.map (fun q => issueRowOf (uuidOf (st.nextId + q.1)) jobId domain now q.2)
    { st with db := { st.db with site_issues := st.db.site_issues ++ rows }
              nextId := st.nextId + is_.length }
  else st

/-- Step 3 of ingestion: if results.summary, insert the site_summaries
row. -/
def ingestSummary (jobId domain : String) (results : Results) (now : Nat)
    (st : Store) : Store :=
  match results.summary with
  | none => st
  | some s =>
    { st with db := { st.db with
                      site_summaries := st.db.site_summaries ++
                        [summaryRowOf (uuidOf st.nextId) jobId domain now s] }
              nextId := st.nextId + 1 }

/-- Sequential best-effort-free snapshot loop: each put is awaited with
no try/catch, so the first failing put aborts the loop (and, in
ingestResults, everything after it), keeping the puts already made. -/
def putSnapshotsLoop (env : EnvCfg) (jobId : String) :
    List SnapshotRecord → List (String × String) → Option String × List (String × String)
  | [], snaps => (none, snaps)
  | snap :: rest, snaps =>
    let key := jobId ++ "/" ++ env.encodeURIComponent snap.url ++ ".html"
    if env.snapPutOk key snap.html then
      putSnapshotsLoop env jobId rest (r2put key snap.html snaps)
    else
      (some key, snaps)

/-- Step 4 of ingestion: if results.snapshots?.length, write each
snapshot to R2. Returns the key of the first failed put, if any. -/
def ingestSnapshots (env : EnvCfg) (jobId : String) (results : Results)
    (st : Store) : Option String × Store :=
  if listTruthy results.snapshots then
    let r := putSnapshotsLoop env jobId (results.snapshots.getD []) st.snapshots
    (r.1, { st with snapshots := r.2 })
  else
    (none, st)

/-- The SET clause of the final UPDATE: status = completed, pages_done =
results.pages?.length ?? 0, score = results.summary?.score ?? null,
completed_at = now. -/
def completedUpdate (results : Results) (now : Nat) (j : Job) : Job :=
  { j with status := "completed"
           pages_done := (results.pages.map List.length).getD 0
           score := results.summary.bind SummaryRecord.score
           completed_at := some now }

/-- Step 5 of ingestion: UPDATE crawl_jobs SET ... WHERE id = jobId. -/
def markCompleted (jobId : String) (results : Results) (now : Nat) (st : Store) :
    Store :=
  { st with db := updateJobs st.db jobId (completedUpdate results now) }

/-- ingestResults: look up the job's domain, batch-insert pages and
issues, insert the summary, write snapshots sequentially, then mark the
job completed. Note the code performs no check that the job's stored
status is non-terminal. A failing snapshot put throws: the error is
returned together with the store reached at that point (D1 inserts
already made persist; the completed update never runs). The ingestCalls
bump is the observation counter for the invocation-count property and
influences nothing else. -/
def ingestResults (env : EnvCfg) (jobId : String) (results : Results) (now : Nat)
    (st : Store) : Option String × Store :=
  let st0 : Store := { st with ingestCalls := st.ingestCalls + 1 }
  let domain := ((findJob st0.db jobId).map Job.domain).getD ""
  let st1 := ingestPages jobId domain results now st0
  let st2 := ingestIssues jobId domain results now st1
  let st3 := ingestSummary jobId domain results now st2
  match ingestSnapshots env jobId results st3 with
  | (some key, st4) => (some ("Snapshot put failed: " ++ key), st4)
  | (none, st4) => (none, markCompleted jobId results now st4)

/-!
Polling. -/

/-- The container's GET /status response body. -/
structure ContainerStatus where
  status : String
  pages_done : Option Nat
  pages_found : Option Nat
  results : Option Results
deriving DecidableEq

/-- Outcome of contacting the container: the fetch threw or returned a
non-ok response (both paths return the stored row), or an ok JSON
body. -/
inductive ContainerPoll
  | unreachable
  | ok (cs : ContainerStatus)
deriving DecidableEq

/-- The poll response shape; optional fields model properties absent
from the returned object. -/
structure PollSnapshot where
  id : String
  status : String
  score : Option Int
  pages_found : Option Nat
  pages_done : Option Nat
  error : Option String
deriving DecidableEq

/-- The stored row as returned by the poll SELECT (id, status, score,
pages_found, pages_done, error). -/
def rowSnapshot (j : Job) : PollSnapshot :=
  { id := j.id, status := j.status, score := j.score
    pages_found := some j.pages_found, pages_done := some j.pages_done
    error := j.error }

/-- pollJob: NotFound for an unknown id; a terminal stored status is
returned verbatim without contacting the container; otherwise the
container is polled, results are ingested when it reports completed with
a results payload (an ingestion throw is swallowed by the surrounding
catch, returning the previously read stored row), and non-terminal
reports come back as a running snapshot with ?? 0 progress defaults. -/
def pollJob (env : EnvCfg) (jobId : String) (cont : ContainerPoll) (now : Nat)
    (st : Store) : Except String (PollSnapshot × Store) :=
  match findJob st.db jobId with
  | none => Except.error "Job not found"
  | some job =>
    if job.status == "completed" || job.status == "failed" then
      Except.ok (rowSnapshot job, st)
    else
      match cont with
      | ContainerPoll.unreachable => Except.ok (rowSnapshot job, st)
      | ContainerPoll.ok cs =>
        match cs.status == "completed", cs.results with
        | true, some results =>
          match ingestResults env jobId results now st with
          | (some _, st4) => Except.ok (rowSnapshot job, st4)
          | (none, st4) =>
            Except.ok
              ({ id := jobId, status := "completed"
                 score := results.summary.bind SummaryRecord.score
                 pages_found := none
                 pages_done := some ((results.pages.map List.length).getD 0)
                 error := none }, st4)
        | _, _ =>
          Except.ok
            ({ id := jobId, status := "running", score := none
               pages_found := some (cs.pages_found.getD 0)
               pages_done := some (cs.pages_done.getD 0)
               error := none }, st)

/-!
Submission. -/

/-- Outcome of the container /start call: accepted (2xx), a non-2xx
response with its body text, or a thrown fetch error. -/
inductive StartOutcome
  | accepted
  | rejectedNotOk (errText : String)
  | unreachable (msg : String)
deriving DecidableEq

/-- The message of the exception observed by the catch block in
submitCrawl, when the start call failed. -/
def startErrMsg : StartOutcome → Option String
  | StartOutcome.accepted => none
  | StartOutcome.rejectedNotOk t => some ("Container rejected start: " ++ t)
  | StartOutcome.unreachable m => some m

/-- The serialized config column: JSON.stringify of the merged crawl
configuration. -/
def configJson (pages depth : Nat) : String :=
  "\x7b\"max_pages\":" ++ toString pages ++ ",\"max_depth\":" ++ toString depth ++ "\x7d"

/-- The freshly inserted crawl_jobs row (INSERT ... VALUES (?,?,?,?,
queued) with the schema's column defaults). -/
def newJobRow (jobId domain url cfg : String) (now : Nat) : Job :=
  { id := jobId, domain := domain, start_url := url, config := cfg
    status := "queued", pages_found := 0, pages_done := 0
    score := none, error := none
    created_at := now, started_at := none, completed_at := none }

/-- Successful submission value: { job_id, status, domain }. -/
structure SubmitOk where
  job_id : String
  status : String
  domain : String
deriving DecidableEq

/-- Exceptions thrown out of the shared-logic submitCrawl: the URL
constructor's TypeError on a malformed start URL, or the submission
failure rethrown after the job is marked failed. -/
inductive SubmitThrow
  | urlParse (msg : String)
  | startFailed (msg : String)
deriving DecidableEq

/-- The message text a SubmitThrow carries (err.message at the transport
boundary). -/
def submitThrowMsg : SubmitThrow → String
  | SubmitThrow.urlParse m => m
  | SubmitThrow.startFailed m => m

/-- Shared business-logic submitCrawl: parse the URL (a malformed URL
throws before anything is written), insert the queued row, start the
container; on success mark running and return, on failure mark failed
with an error message and rethrow — the thrown message does not carry
the job id. hostname? is the outcome of new URL(url).hostname. -/
def submitCrawl (env : EnvCfg) (url : String) (maxPages maxDepth : Option Nat)
    (hostname? : Option String) (start : StartOutcome) (jobId : String) (now : Nat)
    (st : Store) : Except SubmitThrow SubmitOk × Store :=
  match hostname? with
  | none => (Except.error (SubmitThrow.urlParse "Invalid URL"), st)
  | some domain =>
    let pages := maxPages.getD env.maxPagesDefault
    let depth := maxDepth.getD env.maxDepthDefault
    let st1 : Store :=
      { st with db := { st.db with
          jobs := st.db.jobs ++ [newJobRow jobId domain url (configJson pages depth) now] } }
    match startErrMsg start with
    | none =>
      let st2 : Store :=
        { st1 with db := updateJobs st1.db jobId (fun j =>
            { j with status := "running", started_at := some now }) }
      (Except.ok { job_id := jobId, status := "running", domain := domain }, st2)
    | some m =>
      let st2 : Store :=
        { st1 with db := updateJobs st1.db jobId (fun j =>
            { j with status := "failed", error := some ("Container start failed: " ++ m) }) }
      (Except.error (SubmitThrow.startFailed ("Failed to start crawler container: " ++ m)), st2)

/-- HTTP-level response of the REST submit route (status code plus the
JSON body's fields; an absent field is none). -/
structure SubmitResponse where
  code : Nat
  error : Option String
  job_id : Option String
  domain : Option String
  status : Option String
deriving DecidableEq

/-- Standalone REST worker handleSubmitCrawl, composed with the fetch
handler's try/catch: a falsy body.url is a 400; a malformed URL throws
out to the generic handler and becomes a 500 (error message modelled as
a fixed string — its platform text is irrelevant); a start failure
returns a 502 that carries the job id; success is a 201. -/
def handleSubmitCrawl (env : EnvCfg) (bodyUrl : Option String)
    (maxPages maxDepth : Option Nat) (hostname? : Option String)
    (start : StartOutcome) (jobId : String) (now : Nat) (st : Store) :
    SubmitResponse × Store :=
  match bodyUrl with
  | none =>
    ({ code := 400, error := some "url is required"
       job_id := none, domain := none, status := none }, st)
  | some url =>
    if url == "" then
      ({ code := 400, error := some "url is required"
         job_id := none, domain := none, status := none }, st)
    else
      match hostname? with
      | none =>
        ({ code := 500, error := some "Invalid URL"
           job_id := none, domain := none, status := none }, st)
      | some domain =>
        let pages := maxPages.getD env.maxPagesDefault
        let depth := maxDepth.getD env.maxDepthDefault
        let st1 : Store :=
          { st with db := { st.db with
              jobs := st.db.jobs ++ [newJobRow jobId domain url (configJson pages depth) now] } }
        match startErrMsg start with
        | none =>
          let st2 : Store :=
            { st1 with db := updateJobs st1.db jobId (fun j =>
                { j with status := "running", started_at := some now }) }
          ({ code := 201, error := none
             job_id := some jobId, domain := some domain, status := some "running" }, st2)
        | some m =>
          let st2 : Store :=
            { st1 with db := updateJobs st1.db jobId (fun j =>
                { j with status := "failed", error := some ("Container start failed: " ++ m) }) }
          ({ code := 502, error := some "Failed to start crawler container"
             job_id := some jobId, domain := none, status := none }, st2)

/-- The MCP worker's own REST adapter for POST /crawl: it calls the
shared submitCrawl and maps any thrown error to a 500 body carrying only
err.message — in particular the submission-failure response has no
job_id field and the same 500 code as any internal error. -/
def restSubmitShared (env : EnvCfg) (bodyUrl : Option String)
    (maxPages maxDepth : Option Nat) (hostname? : Option String)
    (start : StartOutcome) (jobId : String) (now : Nat) (st : Store) :
    SubmitResponse × Store :=
  match bodyUrl with
  | none =>
    ({ code := 400, error := some "url is required"
       job_id := none, domain := none, status := none }, st)
  | some url =>
    if url == "" then
      ({ code := 400, error := some "url is required"
         job_id := none, domain := none, status := none }, st)
    else
      match submitCrawl env url maxPages maxDepth hostname? start jobId now st with
      | (Except.ok r, st1) =>
        ({ code := 201, error := none
           job_id := some r.job_id, domain := some r.domain, status := some r.status }, st1)
      | (Except.error e, st1) =>
        ({ code := 500, error := some (submitThrowMsg e)
           job_id := none, domain := none, status := none }, st1)

/-!
Reachable states of the job store. The orchestrator's mutating entry
points are submit and poll (ingestion runs only inside poll, on first
terminal observation); listing, detail, pages, issues and the query
gateway are read-only. -/

/-- One mutating request, with the external outcomes it observed. -/
inductive Op
  | submit (url : String) (maxPages maxDepth : Option Nat)
      (hostname? : Option String) (start : StartOutcome) (jobId : String)
  | poll (jobId : String) (cont : ContainerPoll)

/-- The store after serving one request (a NotFound poll leaves the
store unchanged). -/
def stepOp (env : EnvCfg) (op : Op) (now : Nat) (st : Store) : Store :=
  match op with
  | Op.submit url mp md h s jid => (submitCrawl env url mp md h s jid now st).2
  | Op.poll jid cont =>
    match pollJob env jid cont now st with
    | Except.ok r => r.2
    | Except.error _ => st

/-- Freshness of the ids crypto.randomUUID generates: a submitted job id
never collides with a stored one. -/
def freshFor (st : Store) (op : Op) : Prop :=
  match op with
  | Op.submit _ _ _ _ _ jid => ∀ j ∈ st.db.jobs, j.id ≠ jid
  | Op.poll _ _ => True

/-- The store of a freshly initialized deployment. -/
def emptyStore : Store :=
  { db := { jobs := [], page_audits := [], site_issues := [], site_summaries := [] }
    snapshots := [], nextId := 0, ingestCalls := 0 }

/-- States reachable from the empty deployment by serving requests. -/
inductive Reachable (env : EnvCfg) : Store → Prop
  | init : Reachable env emptyStore
  | step (op : Op) (now : Nat) (st : Store) :
      Reachable env st → freshFor st op → Reachable env (stepOp env op now st)

/-- The per-row invariant of the Job data model: status is one of the
four lifecycle states, score is non-null only when completed, error is
non-null only when failed. -/
def jobInv (j : Job) : Prop :=
  (j.status = "queued" ∨ j.status = "running" ∨ j.status = "completed" ∨
      j.status = "failed") ∧
    (j.score ≠ none → j.status = "completed") ∧
    (j.error ≠ none → j.status = "failed")

instance (j : Job) : Decidable (jobInv j) := by
  unfold jobInv; infer_instance

/-- Invariant of the whole jobs table: every row satisfies jobInv and
ids are pairwise distinct (UUID uniqueness maintained by the insert
path). -/
def jobsInv (l : List Job) : Prop :=
  l.Pairwise (fun a b => a.id ≠ b.id) ∧ ∀ j ∈ l, jobInv j

/-!
Concrete fixtures used by the counterexamples and witnesses. -/

/-- A worker environment with the documented defaults, an identity URL
encoder and an R2 bucket that accepts every put. -/
def env0 : EnvCfg :=
  { maxPagesDefault := 50, maxDepthDefault := 3
    encodeURIComponent := fun s => s, snapPutOk := fun _ _ => true }

/-- The same environment with an R2 bucket whose puts all fail. -/
def envSnapFail : EnvCfg :=
  { env0 with snapPutOk := fun _ _ => false }

/-- A page record as produced by the audit function for the scenario of
the testable-properties section. -/
def pageRec1 : PageRecord :=
  { url := "https://example.com/", status_code := some 200
    title := some "Home", title_length := some 4, title_status := some "fail"
    meta_desc := none, meta_desc_length := none, meta_desc_status := none
    h1_count := some 1, has_canonical := true, is_indexable := true
    has_json_ld := false, has_viewport := true, has_og_tags := false
    word_count := some 100, images_total := some 1, images_no_alt := some 0
    internal_links := some 2, external_links := some 1, mixed_content := false
    audit_json := none }

/-- A summary record with score 73. -/
def sumRec1 : SummaryRecord :=
  { pages_audited := some 1, score := some 73, issues_critical := some 0
    issues_warning := some 1, issues_info := some 0, audit_json := none }

/-- A terminal payload with one page and a summary, no snapshots. -/
def results1 : Results :=
  { pages := some [pageRec1], issues := none, summary := some sumRec1
    snapshots := none }

/-- The same payload plus one raw HTML snapshot. -/
def resultsSnap : Results :=
  { pages := some [pageRec1], issues := none, summary := some sumRec1
    snapshots := some [{ url := "https://example.com/", html := "<html></html>" }] }

/-- A job row in the running state, as left by a successful submit. -/
def jobRunning1 : Job :=
  { id := "j1", domain := "example.com", start_url := "https://example.com"
    config := configJson 50 3, status := "running", pages_found := 0, pages_done := 0
    score := none, error := none, created_at := 0, started_at := some 0
    completed_at := none }

/-- A store holding only that running job. -/
def stRunning1 : Store :=
  { db := { jobs := [jobRunning1], page_audits := [], site_issues := []
            site_summaries := [] }
    snapshots := [], nextId := 0, ingestCalls := 0 }

/-- The store after ingesting results1 once into stRunning1. -/
def stIngested1 : Store := (ingestResults env0 "j1" results1 1 stRunning1).2

/-- The store after a second, duplicate invocation of ingestion. -/
def stTwice1 : Store := (ingestResults env0 "j1" results1 2 stIngested1).2

/-- The completed row as it stands in stIngested1. -/
def jobCompleted1 : Job :=
  { jobRunning1 with status := "completed", pages_done := 1, score := some 73
                     completed_at := some 1 }

/-- Outcome of ingesting the snapshot-bearing payload when the R2 put
fails. -/
def snapFailOut : Option String × Store :=
  ingestResults envSnapFail "j1" resultsSnap 1 stRunning1

/-- The container status report for a finished crawl carrying
resultsSnap. -/
def csDoneSnap : ContainerStatus :=
  { status := "completed", pages_done := none, pages_found := none
    results := some resultsSnap }

/-- The page_audits row ingestion builds from pageRec1 on a store with
fresh-id counter 0. -/
def pa1 : PageAudit := pageRowOf "uuid-0" "j1" "example.com" 1 pageRec1

/-!
Theorems. -/

/-- Claim C1 (code bug): the Ingestion Pipeline performs no check of the
job's stored status before inserting. Evaluated at the failing input — a
job whose stored status is already completed, with its rows already
ingested — a duplicate invocation of ingestion inserts a second
page_audits row and a second site_summaries row, exactly what the
claimed guard is there to prevent. -/
theorem C1_duplicate_ingest_inserts_rows :
    (findJob stIngested1.db "j1").map Job.status = some "completed" ∧
    stIngested1.db.page_audits.length = 1 ∧
    stIngested1.db.site_summaries.length = 1 ∧
    stTwice1.db.page_audits.length = 2 ∧
    stTwice1.db.site_summaries.length = 2 := by decide

/-- Claim C5 (code bug): a failing snapshot put is not best-effort — the
exception aborts ingestion before the final UPDATE. At the failing input
(a one-page payload with one snapshot, every R2 put failing) the page
and summary inserts made before the snapshot loop persist, but the job
is NOT marked completed: its status stays running, and the surrounding
poll swallows the error and reports the stored running row. -/
theorem C5_snapshot_failure_aborts_completion :
    snapFailOut.1.isSome = true ∧
    snapFailOut.2.db.page_audits.length = 1 ∧
    snapFailOut.2.db.site_summaries.length = 1 ∧
    (findJob snapFailOut.2.db "j1").map Job.status = some "running" ∧
    pollJob envSnapFail "j1" (ContainerPoll.ok csDoneSnap) 1 stRunning1 =
      Except.ok (rowSnapshot jobRunning1, snapFailOut.2) := by decide

/-- Claim C4: the query gateway rejects a SQL string with QueryRejected,
without executing it, exactly when its normalized form — trimmed then
uppercased — starts with one of the seven denylisted keywords. The
rejection is therefore insensitive to letter case and leading
whitespace, and a rejected query's outcome is independent of the
database (the execution oracle). -/
theorem C4_query_denylist_rejection
    (e₁ e₂ : String → List (List (String × String))) (sql : String) :
    (queryDb e₁ sql = Except.error "Only SELECT queries allowed" ↔
      ∃ kw ∈ sqlForbidden, strStartsWith (jsToUpperCase (jsTrim sql)) kw = true) ∧
    (queryDb e₁ sql = Except.error "Only SELECT queries allowed" →
      queryDb e₁ sql = queryDb e₂ sql) := by
  by_cases h :
      sqlForbidden.any (fun kw => strStartsWith (jsToUpperCase (jsTrim sql)) kw) = true
  · refine ⟨⟨fun _ => List.any_eq_true.mp h, fun _ => ?_⟩, fun _ => ?_⟩ <;>
      simp [queryDb, h]
  · refine ⟨⟨fun hr => ?_, fun hex => absurd (List.any_eq_true.mpr hex) h⟩,
      fun hr => ?_⟩ <;> simp [queryDb, h] at hr

/-- Witness for C4 at a concrete mixed-case input with leading
whitespace, over two different database oracles. -/
theorem C4_query_denylist_witness :
    (queryDb (fun _ => []) "  dRoP table crawl_jobs" =
        Except.error "Only SELECT queries allowed" ↔
      ∃ kw ∈ sqlForbidden,
        strStartsWith (jsToUpperCase (jsTrim "  dRoP table crawl_jobs")) kw = true) ∧
    (queryDb (fun _ => []) "  dRoP table crawl_jobs" =
        Except.error "Only SELECT queries allowed" →
      queryDb (fun _ => []) "  dRoP table crawl_jobs" =
        queryDb (fun _ => [[("a", "1")]]) "  dRoP table crawl_jobs") :=
  C4_query_denylist_rejection (fun _ => []) (fun _ => [[("a", "1")]])
    "  dRoP table crawl_jobs"

/-- Claim C2: polling a job whose stored status is terminal returns the
stored row verbatim and leaves the store untouched — for any container
outcome whatsoever, so the compute unit is never consulted, ingestion is
never invoked (ingestCalls is part of the unchanged store), and any
number of repeated polls return identical status/score/pages_done. -/
theorem C2_poll_terminal_readonly (env : EnvCfg) (jobId : String)
    (cont : ContainerPoll) (now : Nat) (st : Store) (job : Job)
    (hfind : findJob st.db jobId = some job)
    (hterm : job.status = "completed" ∨ job.status = "failed") :
    pollJob env jobId cont now st = Except.ok (rowSnapshot job, st) := by
  have hcond : (job.status == "completed" || job.status == "failed") = true := by
    rcases hterm with h | h <;> simp [h]
  unfold pollJob
  rw [hfind]
  simp [hcond]

/-- Witness for C2: the completed job of stIngested1, polled with an
unreachable container. -/
theorem C2_poll_terminal_witness :
    pollJob env0 "j1" ContainerPoll.unreachable 5 stIngested1 =
      Except.ok (rowSnapshot jobCompleted1, stIngested1) :=
  C2_poll_terminal_readonly env0 "j1" ContainerPoll.unreachable 5 stIngested1
    jobCompleted1 (by decide) (Or.inl (by decide))

/-- Claim C10: in the shared business-logic listJobs, a caller-supplied
limit of 0 is falsy and is replaced by the default of 20, so listing
with limit 0 behaves exactly like listing with the limit absent and
returns min(matching, 20) jobs — up to 20, not zero. -/
theorem C10_list_limit_zero_default (domain status : Option String) (st : Store) :
    listJobs domain status (some 0) st = listJobs domain status none st ∧
    (listJobs domain status (some 0) st).length =
      min (jobsSortedDesc (jobsMatching domain status st.db)).length 20 := by
  constructor
  · rfl
  · simp [listJobs, jsOrInt, sqlLimit, Nat.min_comm]

/-- Looking up a freshly inserted id after an UPDATE keyed on that id
finds the updated fresh row: every pre-existing row has a different id,
and the update does not change ids. -/
lemma find?_update_append (l : List Job) (x : Job) (jid : String) (f : Job → Job)
    (hfresh : ∀ j ∈ l, j.id ≠ jid) (hx : x.id = jid) (hf : (f x).id = x.id) :
    ((l ++ [x]).map (fun j => if j.id == jid then f j else j)).find?
      (fun j => j.id == jid) = some (f x) := by
  induction l with
  | nil => simp [hx, List.find?, hf.trans hx]
  | cons a t ih =>
    have ha : (a.id == jid) = false := by
      simpa using hfresh a (List.mem_cons_self a t)
    have ht : ∀ j ∈ t, j.id ≠ jid := fun j hj => hfresh j (List.mem_cons_of_mem a hj)
    simpa [List.find?, ha] using ih ht

/-- Claim C6 (counterexample): submitting the present but malformed
start URL "not-a-url" (new URL throws on it, so the hostname outcome is
none) yields a 500 from the REST worker and an uncaught TypeError from
the shared logic — not an InvalidInput/400 — though indeed no Job row is
inserted and the compute unit is not contacted. -/
theorem C6_malformed_url_counterexample :
    handleSubmitCrawl env0 (some "not-a-url") none none none StartOutcome.accepted
        "j9" 0 emptyStore =
      ({ code := 500, error := some "Invalid URL", job_id := none, domain := none
         status := none }, emptyStore) ∧
    (handleSubmitCrawl env0 (some "not-a-url") none none none StartOutcome.accepted
        "j9" 0 emptyStore).1.code ≠ 400 ∧
    submitCrawl env0 "not-a-url" none none none StartOutcome.accepted "j9" 0
        emptyStore =
      (Except.error (SubmitThrow.urlParse "Invalid URL"), emptyStore) := by decide

/-- Claim C6 as amended: for every submission whose startUrl is present
(non-empty) but not a well-formed absolute URL, the URL constructor's
exception escapes to the generic handler: the caller gets a 500 Internal
error, not InvalidInput/400. No Job row is inserted (the store is
returned unchanged) and the compute unit is not contacted (the result is
the same for every start outcome s1, s2). -/
theorem C6_malformed_url_amended (env : EnvCfg) (url : String)
    (mp md : Option Nat) (s1 s2 : StartOutcome) (jid : String) (now : Nat)
    (st : Store) (hurl : url ≠ "") :
    handleSubmitCrawl env (some url) mp md none s1 jid now st =
      ({ code := 500, error := some "Invalid URL", job_id := none, domain := none
         status := none }, st) ∧
    submitCrawl env url mp md none s2 jid now st =
      (Except.error (SubmitThrow.urlParse "Invalid URL"), st) := by
  have hu : (url == "") = false := by simpa using hurl
  constructor
  · simp [handleSubmitCrawl, hu]
  · rfl

/-- Witness for the amended C6 at a concrete malformed URL and two
different start outcomes. -/
theorem C6_malformed_url_witness :
    handleSubmitCrawl env0 (some "htp:/x") none none none StartOutcome.accepted
        "j2" 3 stRunning1 =
      ({ code := 500, error := some "Invalid URL", job_id := none, domain := none
         status := none }, stRunning1) ∧
    submitCrawl env0 "htp:/x" none none none (StartOutcome.unreachable "down") "j2" 3
        stRunning1 =
      (Except.error (SubmitThrow.urlParse "Invalid URL"), stRunning1) :=
  C6_malformed_url_amended env0 "htp:/x" none none StartOutcome.accepted
    (StartOutcome.unreachable "down") "j2" 3 stRunning1 (by decide)

/-- Claim C3 (counterexample): in the shared business-logic path (the
MCP worker and its own REST adapter), a failed container start — shown
for both failure modes, a non-2xx response and an unreachable container
(thrown fetch) — surfaces as a generic 500 whose body has no job_id
field and whose error message does not contain the generated job id
"j9": the submission-failed error the caller sees is neither
distinguishable from an internal error nor carries the jobId,
contradicting the claim for this transport. -/
theorem C3_submit_failure_counterexample :
    (restSubmitShared env0 (some "https://example.com") none none
        (some "example.com") (StartOutcome.rejectedNotOk "boom") "j9" 0
        emptyStore).1.code = 500 ∧
    (restSubmitShared env0 (some "https://example.com") none none
        (some "example.com") (StartOutcome.rejectedNotOk "boom") "j9" 0
        emptyStore).1.job_id = none ∧
    strContainsSub
      ((restSubmitShared env0 (some "https://example.com") none none
          (some "example.com") (StartOutcome.rejectedNotOk "boom") "j9" 0
          emptyStore).1.error.getD "") "j9" = false ∧
    (submitCrawl env0 "https://example.com" none none (some "example.com")
        (StartOutcome.rejectedNotOk "boom") "j9" 0 emptyStore).1 =
      Except.error (SubmitThrow.startFailed
        "Failed to start crawler container: Container rejected start: boom") ∧
    (restSubmitShared env0 (some "https://example.com") none none
        (some "example.com") (StartOutcome.unreachable "connect timeout") "j9" 0
        emptyStore).1.code = 500 ∧
    (restSubmitShared env0 (some "https://example.com") none none
        (some "example.com") (StartOutcome.unreachable "connect timeout") "j9" 0
        emptyStore).1.job_id = none ∧
    strContainsSub
      ((restSubmitShared env0 (some "https://example.com") none none
          (some "example.com") (StartOutcome.unreachable "connect timeout") "j9" 0
          emptyStore).1.error.getD "") "j9" = false ∧
    (submitCrawl env0 "https://example.com" none none (some "example.com")
        (StartOutcome.unreachable "connect timeout") "j9" 0 emptyStore).1 =
      Except.error (SubmitThrow.startFailed
        "Failed to start crawler container: connect timeout") := by
  decide

/-- Claim C3 as amended: when the container start call fails — the
container unreachable (the fetch threw message m) or a non-2xx response
(the rethrow carries m = "Container rejected start: " plus the body
text); hfail covers exactly these two modes — both implementations mark
the job failed with the non-null error message "Container start
failed: " ++ m, and the job row remains discoverable by id. The
standalone REST worker additionally returns a distinguishable 502
response that carries the jobId; the shared business-logic path merely
rethrows, and its surfaced error does not include the jobId. -/
theorem C3_submit_failure_amended (env : EnvCfg) (url domain jid m : String)
    (mp md : Option Nat) (s : StartOutcome) (now : Nat) (st : Store)
    (hurl : url ≠ "") (hfail : startErrMsg s = some m)
    (hfresh : ∀ j ∈ st.db.jobs, j.id ≠ jid) :
    (handleSubmitCrawl env (some url) mp md (some domain) s jid now st).1 =
      { code := 502, error := some "Failed to start crawler container"
        job_id := some jid, domain := none, status := none } ∧
    (submitCrawl env url mp md (some domain) s jid now st).1 =
      Except.error (SubmitThrow.startFailed
        ("Failed to start crawler container: " ++ m)) ∧
    (handleSubmitCrawl env (some url) mp md (some domain) s jid now st).2 =
      (submitCrawl env url mp md (some domain) s jid now st).2 ∧
    findJob (submitCrawl env url mp md (some domain) s jid now st).2.db jid =
      some { newJobRow jid domain url
              (configJson (mp.getD env.maxPagesDefault) (md.getD env.maxDepthDefault)) now with
             status := "failed"
             error := some ("Container start failed: " ++ m) } := by
  have hu : (url == "") = false := by simpa using hurl
  cases s with
  | accepted => exact absurd hfail (by simp [startErrMsg])
  | rejectedNotOk t =>
    have hm : "Container rejected start: " ++ t = m := by
      simpa [startErrMsg] using hfail
    subst hm
    have hfind :
        findJob (submitCrawl env url mp md (some domain)
            (StartOutcome.rejectedNotOk t) jid now st).2.db jid =
          some { newJobRow jid domain url
                  (configJson (mp.getD env.maxPagesDefault) (md.getD env.maxDepthDefault)) now with
                 status := "failed"
                 error := some ("Container start failed: " ++
                   ("Container rejected start: " ++ t)) } :=
      find?_update_append st.db.jobs _ jid _ hfresh rfl rfl
    exact ⟨by simp [handleSubmitCrawl, hu, startErrMsg], rfl,
      by simp [handleSubmitCrawl, submitCrawl, hu, startErrMsg], hfind⟩
  | unreachable mm =>
    have hm : mm = m := by simpa [startErrMsg] using hfail
    subst hm
    have hfind :
        findJob (submitCrawl env url mp md (some domain)
            (StartOutcome.unreachable mm) jid now st).2.db jid =
          some { newJobRow jid domain url
                  (configJson (mp.getD env.maxPagesDefault) (md.getD env.maxDepthDefault)) now with
                 status := "failed"
                 error := some ("Container start failed: " ++ mm) } :=
      find?_update_append st.db.jobs _ jid _ hfresh rfl rfl
    exact ⟨by simp [handleSubmitCrawl, hu, startErrMsg], rfl,
      by simp [handleSubmitCrawl, submitCrawl, hu, startErrMsg], hfind⟩

/-- Witness for the amended C3 at two concrete failed submissions into
the empty store, one per failure mode: an unreachable container (fetch
threw "fetch failed") and a non-2xx response with body "boom". -/
theorem C3_submit_failure_witness :
    ((handleSubmitCrawl env0 (some "https://example.com") none none
        (some "example.com") (StartOutcome.unreachable "fetch failed") "j7" 0
        emptyStore).1 =
      { code := 502, error := some "Failed to start crawler container"
        job_id := some "j7", domain := none, status := none } ∧
      (submitCrawl env0 "https://example.com" none none (some "example.com")
          (StartOutcome.unreachable "fetch failed") "j7" 0 emptyStore).1 =
        Except.error (SubmitThrow.startFailed
          ("Failed to start crawler container: " ++ "fetch failed")) ∧
      (handleSubmitCrawl env0 (some "https://example.com") none none
          (some "example.com") (StartOutcome.unreachable "fetch failed") "j7" 0
          emptyStore).2 =
        (submitCrawl env0 "https://example.com" none none (some "example.com")
          (StartOutcome.unreachable "fetch failed") "j7" 0 emptyStore).2 ∧
      findJob (submitCrawl env0 "https://example.com" none none
          (some "example.com") (StartOutcome.unreachable "fetch failed") "j7" 0
          emptyStore).2.db "j7" =
        some { newJobRow "j7" "example.com" "https://example.com"
                (configJson 50 3) 0 with
               status := "failed"
               error := some ("Container start failed: " ++ "fetch failed") }) ∧
    ((handleSubmitCrawl env0 (some "https://example.com") none none
        (some "example.com") (StartOutcome.rejectedNotOk "boom") "j7" 0
        emptyStore).1 =
      { code := 502, error := some "Failed to start crawler container"
        job_id := some "j7", domain := none, status := none } ∧
      (submitCrawl env0 "https://example.com" none none (some "example.com")
          (StartOutcome.rejectedNotOk "boom") "j7" 0 emptyStore).1 =
        Except.error (SubmitThrow.startFailed
          ("Failed to start crawler container: " ++
            ("Container rejected start: " ++ "boom"))) ∧
      (handleSubmitCrawl env0 (some "https://example.com") none none
          (some "example.com") (StartOutcome.rejectedNotOk "boom") "j7" 0
          emptyStore).2 =
        (submitCrawl env0 "https://example.com" none none (some "example.com")
          (StartOutcome.rejectedNotOk "boom") "j7" 0 emptyStore).2 ∧
      findJob (submitCrawl env0 "https://example.com" none none
          (some "example.com") (StartOutcome.rejectedNotOk "boom") "j7" 0
          emptyStore).2.db "j7" =
        some { newJobRow "j7" "example.com" "https://example.com"
                (configJson 50 3) 0 with
               status := "failed"
               error := some ("Container start failed: " ++
                 ("Container rejected start: " ++ "boom")) }) :=
  ⟨C3_submit_failure_amended env0 "https://example.com" "example.com" "j7"
      "fetch failed" none none (StartOutcome.unreachable "fetch failed") 0
      emptyStore (by decide) rfl (by intro j hj; simp [emptyStore] at hj),
    C3_submit_failure_amended env0 "https://example.com" "example.com" "j7"
      ("Container rejected start: " ++ "boom") none none
      (StartOutcome.rejectedNotOk "boom") 0 emptyStore (by decide) rfl
      (by intro j hj; simp [emptyStore] at hj)⟩


/-- Claim C8 (counterexample): in the shared business-logic getPages, a
limit of 0 is falsy, falls back to the default 50 and returns rows: on a
store holding one page_audits row for job j1, limit 0 returns that row,
not zero rows. -/
theorem C8_pages_limit_counterexample :
    getPages "j1" none (some 0) none stIngested1 = [pa1] ∧
    (getPages "j1" none (some 0) none stIngested1).length ≠ 0 := by decide

/-- Claim C8 as amended: in the standalone REST worker, pages with
limit 0 returns zero rows (count 0, no error) and limits above 200 are
clamped to 200; job-listing limits above 100 are clamped to 100 in both
implementations, and the shared getPages also clamps above 200 — but in
the shared business logic a pages limit of 0 is treated as absent
(default 50), so it can return rows. -/
theorem C8_limit_clamping_amended :
    (∀ (jid : String) (po : Option String) (off : Option Int) (st : Store),
        handleGetPages jid po (some 0) off st = ([], 0)) ∧
    (∀ (jid : String) (po : Option String) (l : Int) (off : Option Int) (st : Store),
        200 ≤ l →
        handleGetPages jid po (some l) off st = handleGetPages jid po (some 200) off st) ∧
    (∀ (jid : String) (po : Option Bool) (off : Option Int) (st : Store),
        getPages jid po (some 0) off st = getPages jid po none off st) ∧
    (∀ (jid : String) (po : Option Bool) (l : Int) (off : Option Int) (st : Store),
        200 ≤ l →
        getPages jid po (some l) off st = getPages jid po (some 200) off st) ∧
    (∀ (d s : Option String) (l : Int) (st : Store), 100 ≤ l →
        handleListJobs d s (some l) st = handleListJobs d s (some 100) st) ∧
    (∀ (d s : Option String) (l : Int) (st : Store), 100 ≤ l →
        listJobs d s (some l) st = listJobs d s (some 100) st) := by
  have hne : ∀ l : Int, 100 ≤ l → (l == 0) = false := by
    intro l hl
    simp only [beq_eq_false_iff_ne, ne_eq]
    omega
  refine ⟨?_, ?_, ?_, ?_, ?_, ?_⟩
  · intro jid po off st
    simp [handleGetPages, sqlLimit]
  · intro jid po l off st hl
    have : min l 200 = min (200 : Int) 200 := by omega
    simp [handleGetPages, this]
  · intro jid po off st
    rfl
  · intro jid po l off st hl
    have h0 : (l == 0) = false := hne l (by omega)
    have : min l 200 = min (200 : Int) 200 := by omega
    simp [getPages, jsOrInt, h0, this]
  · intro d s l st hl
    have : min l 100 = min (100 : Int) 100 := by omega
    simp [handleListJobs, this]
  · intro d s l st hl
    have h0 : (l == 0) = false := hne l hl
    have : min l 100 = min (100 : Int) 100 := by omega
    simp [listJobs, jsOrInt, h0, this]

/-- Witness for the amended C8 at concrete limits 0, 500 and 250. -/
theorem C8_limit_clamping_witness :
    handleGetPages "j1" none (some 0) none stIngested1 = ([], 0) ∧
    getPages "j1" none (some 0) none stIngested1 =
      getPages "j1" none none none stIngested1 ∧
    handleGetPages "j1" none (some 250) none stIngested1 =
      handleGetPages "j1" none (some 200) none stIngested1 ∧
    listJobs none none (some 500) stIngested1 =
      listJobs none none (some 100) stIngested1 :=
  ⟨C8_limit_clamping_amended.1 "j1" none none stIngested1,
    C8_limit_clamping_amended.2.2.1 "j1" none none stIngested1,
    C8_limit_clamping_amended.2.1 "j1" none 250 none stIngested1 (by norm_num),
    C8_limit_clamping_amended.2.2.2.2.2 none none 500 stIngested1 (by norm_num)⟩

/-- Claim C9: on a non-terminal job, ingestion runs only when the
container reports status completed together with a present results
payload. When it reports completed with no results payload, nothing is
ingested and nothing is written (the store, including the ingestion
counter and the job row, is returned unchanged), and the response is a
running snapshot whose progress counters take the reported values
defaulted to 0. The second conjunct states the only-when direction: any
poll outcome that increased the ingestion counter came from a report
that was completed with a present results payload. -/
theorem C9_poll_completed_without_results (env : EnvCfg) (jobId : String)
    (cs : ContainerStatus) (now : Nat) (st : Store) (job : Job)
    (hfind : findJob st.db jobId = some job)
    (h1 : job.status ≠ "completed") (h2 : job.status ≠ "failed")
    (hcs : cs.status = "completed") (hres : cs.results = none) :
    pollJob env jobId (ContainerPoll.ok cs) now st =
      Except.ok ({ id := jobId, status := "running", score := none
                   pages_found := some (cs.pages_found.getD 0)
                   pages_done := some (cs.pages_done.getD 0)
                   error := none }, st) ∧
    (∀ (cs' : ContainerStatus) (out : PollSnapshot × Store),
        pollJob env jobId (ContainerPoll.ok cs') now st = Except.ok out →
        st.ingestCalls < out.2.ingestCalls →
        cs'.status = "completed" ∧ cs'.results.isSome = true) := by
  have hcond : (job.status == "completed" || job.status == "failed") = false := by
    simp [h1, h2]
  constructor
  · unfold pollJob
    rw [hfind]
    simp [hcond, hres]
  · intro cs' out h hlt
    unfold pollJob at h
    rw [hfind] at h
    simp only [hcond, Bool.false_eq_true, if_false] at h
    by_cases hc : (cs'.status == "completed") = true
    · cases hr : cs'.results with
      | none =>
        rw [hc, hr] at h
        simp only [Except.ok.injEq] at h
        rw [← h] at hlt
        exact absurd hlt (lt_irrefl _)
      | some results =>
        exact ⟨by simpa using hc, by simp [hr]⟩
    · rw [Bool.not_eq_true] at hc
      rw [hc] at h
      cases hcr : cs'.results <;> rw [hcr] at h <;>
        simp only [Except.ok.injEq] at h <;>
        rw [← h] at hlt <;>
        exact absurd hlt (lt_irrefl _)

/-- Witness for C9: a running job polled while the container claims
completed but sends no results payload with progress counters 4/9. -/
theorem C9_poll_completed_witness :
    pollJob env0 "j1"
        (ContainerPoll.ok
          { status := "completed", pages_done := some 4, pages_found := some 9
            results := none }) 2 stRunning1 =
      Except.ok ({ id := "j1", status := "running", score := none
                   pages_found := some (Option.getD (some 9) 0)
                   pages_done := some (Option.getD (some 4) 0)
                   error := none }, stRunning1) ∧
    (∀ (cs' : ContainerStatus) (out : PollSnapshot × Store),
        pollJob env0 "j1" (ContainerPoll.ok cs') 2 stRunning1 = Except.ok out →
        stRunning1.ingestCalls < out.2.ingestCalls →
        cs'.status = "completed" ∧ cs'.results.isSome = true) :=
  C9_poll_completed_without_results env0 "j1"
    { status := "completed", pages_done := some 4, pages_found := some 9
      results := none } 2 stRunning1 jobRunning1 (by decide) (by decide) (by decide)
    rfl rfl

/-!
Preservation of the Job row invariant (claim C7). -/

/-- Two rows of a duplicate-free table sharing an id are the same
row. -/
lemma eq_of_mem_of_same_id (l : List Job)
    (hp : l.Pairwise (fun a b => a.id ≠ b.id)) :
    ∀ x ∈ l, ∀ y ∈ l, x.id = y.id → x = y := by
  induction l with
  | nil => intro x hx; exact absurd hx (List.not_mem_nil x)
  | cons a t ih =>
    have hhead : ∀ b ∈ t, a.id ≠ b.id := fun b hb => List.rel_of_pairwise_cons hp hb
    have htail := List.Pairwise.of_cons hp
    intro x hx y hy hxy
    rcases List.mem_cons.mp hx with hxa | hx' <;>
      rcases List.mem_cons.mp hy with hya | hy'
    · rw [hxa, hya]
    · rw [hxa] at hxy
      exact absurd hxy (hhead y hy')
    · rw [hya] at hxy
      exact absurd hxy.symm (hhead x hx')
    · exact ih htail x hx' y hy' hxy

/-- An UPDATE keyed on an id preserves the table invariant provided the
SET clause keeps ids and turns every stored row with that id into a row
satisfying the row invariant. -/
lemma jobsInv_map_update (l : List Job) (jid : String) (f : Job → Job)
    (hfid : ∀ j, (f j).id = j.id) (hinv : jobsInv l)
    (hupd : ∀ j ∈ l, j.id = jid → jobInv (f j)) :
    jobsInv (l.map (fun j => if j.id == jid then f j else j)) := by
  obtain ⟨hp, hall⟩ := hinv
  have hgid : ∀ j : Job, (if j.id == jid then f j else j).id = j.id := by
    intro j
    by_cases h : (j.id == jid) = true <;> simp [h, hfid]
  constructor
  · exact hp.map _ (fun a b hab => by rw [hgid, hgid]; exact hab)
  · intro j' hj'
    rcases List.mem_map.mp hj' with ⟨j, hj, rfl⟩
    by_cases h : (j.id == jid) = true
    · simpa [h] using hupd j hj (by simpa using h)
    · simpa [h] using hall j hj

/-- Appending a fresh row satisfying the row invariant preserves the
table invariant. -/
lemma jobsInv_append_fresh (l : List Job) (x : Job) (hinv : jobsInv l)
    (hx : jobInv x) (hfresh : ∀ j ∈ l, j.id ≠ x.id) :
    jobsInv (l ++ [x]) := by
  obtain ⟨hp, hall⟩ := hinv
  constructor
  · exact List.pairwise_append.mpr
      ⟨hp, List.pairwise_singleton _ x, fun a ha b hb => by
        rw [List.mem_singleton.mp hb]; exact hfresh a ha⟩
  · intro j hj
    rcases List.mem_append.mp hj with hj | hj
    · exact hall j hj
    · rw [List.mem_singleton.mp hj]; exact hx

/-- submit preserves the table invariant: a malformed URL writes
nothing; otherwise the queued insert is fresh and the follow-up UPDATE
(to running, or to failed with an error message) keeps the row
invariant. -/
lemma jobsInv_submit (env : EnvCfg) (url : String) (mp md : Option Nat)
    (h? : Option String) (s : StartOutcome) (jid : String) (now : Nat) (st : Store)
    (hfresh : ∀ j ∈ st.db.jobs, j.id ≠ jid) (hinv : jobsInv st.db.jobs) :
    jobsInv (submitCrawl env url mp md h? s jid now st).2.db.jobs := by
  cases h? with
  | none => exact hinv
  | some domain =>
    have hnewinv : jobsInv (st.db.jobs ++
        [newJobRow jid domain url
          (configJson (mp.getD env.maxPagesDefault) (md.getD env.maxDepthDefault)) now]) :=
      jobsInv_append_fresh _ _ hinv (by simp [jobInv, newJobRow]) hfresh
    have hfresh2 : ∀ j ∈ st.db.jobs, j.id ≠ jid := hfresh
    have hmem : ∀ j ∈ st.db.jobs ++
        [newJobRow jid domain url
          (configJson (mp.getD env.maxPagesDefault) (md.getD env.maxDepthDefault)) now],
        j.id = jid →
        j = newJobRow jid domain url
          (configJson (mp.getD env.maxPagesDefault) (md.getD env.maxDepthDefault)) now := by
      intro j hj hjid
      rcases List.mem_append.mp hj with hj | hj
      · exact absurd hjid (hfresh2 j hj)
      · exact List.mem_singleton.mp hj
    unfold submitCrawl
    cases hs : startErrMsg s with
    | none =>
      simp only [hs]
      exact jobsInv_map_update _ _ _ (fun j => rfl) hnewinv (by
        intro j hj hjid
        rw [hmem j hj hjid]
        simp [jobInv, newJobRow])
    | some m =>
      simp only [hs]
      exact jobsInv_map_update _ _ _ (fun j => rfl) hnewinv (by
        intro j hj hjid
        rw [hmem j hj hjid]
        simp [jobInv, newJobRow])

/-- The page batch insert does not touch the jobs table. -/
lemma ingestPages_jobs (jobId domain : String) (results : Results) (now : Nat)
    (st : Store) : (ingestPages jobId domain results now st).db.jobs = st.db.jobs := by
  unfold ingestPages
  split <;> rfl

/-- The issue batch insert does not touch the jobs table. -/
lemma ingestIssues_jobs (jobId domain : String) (results : Results) (now : Nat)
    (st : Store) : (ingestIssues jobId domain results now st).db.jobs = st.db.jobs := by
  unfold ingestIssues
  split <;> rfl

/-- The summary insert does not touch the jobs table. -/
lemma ingestSummary_jobs (jobId domain : String) (results : Results) (now : Nat)
    (st : Store) : (ingestSummary jobId domain results now st).db.jobs = st.db.jobs := by
  unfold ingestSummary
  cases results.summary <;> rfl

/-- The snapshot loop does not touch the database at all. -/
lemma ingestSnapshots_db (env : EnvCfg) (jobId : String) (results : Results)
    (st : Store) : (ingestSnapshots env jobId results st).2.db = st.db := by
  unfold ingestSnapshots
  split <;> rfl

/-- The jobs table after ingestion: unchanged when a snapshot put threw,
otherwise rewritten by the completed UPDATE keyed on the job id. -/
lemma ingestResults_jobs (env : EnvCfg) (jobId : String) (results : Results)
    (now : Nat) (st : Store) :
    (ingestResults env jobId results now st).2.db.jobs = st.db.jobs ∨
    (ingestResults env jobId results now st).2.db.jobs =
      st.db.jobs.map (fun j =>
        if j.id == jobId then completedUpdate results now j else j) := by
  unfold ingestResults
  dsimp only
  set st0 : Store := { st with ingestCalls := st.ingestCalls + 1 } with hst0
  set d : String := ((findJob st0.db jobId).map Job.domain).getD "" with hd
  set st3 : Store := ingestSummary jobId d results now
    (ingestIssues jobId d results now (ingestPages jobId d results now st0)) with hst3
  have h3 : st3.db.jobs = st.db.jobs := by
    rw [hst3, ingestSummary_jobs, ingestIssues_jobs, ingestPages_jobs, hst0]
  have hdb4 := ingestSnapshots_db env jobId results st3
  rcases hsnap : ingestSnapshots env jobId results st3 with ⟨err, st4⟩
  rw [hsnap] at hdb4
  cases err with
  | some e =>
    left
    show st4.db.jobs = st.db.jobs
    rw [hdb4, h3]
  | none =>
    right
    show (markCompleted jobId results now st4).db.jobs = _
    have hmark : (markCompleted jobId results now st4).db.jobs =
        st4.db.jobs.map (fun j =>
          if j.id == jobId then completedUpdate results now j else j) := rfl
    rw [hmark, hdb4, h3]

/-- Ingestion preserves the table invariant when the ingested job's
stored status is non-terminal (which is how poll invokes it): the only
jobs-table write is the completed UPDATE, it hits exactly the polled row
(ids are unique), and that row's error is null because its status was
not failed. -/
lemma jobsInv_ingest (env : EnvCfg) (jid : String) (results : Results) (now : Nat)
    (st : Store) (job : Job) (hfind : findJob st.db jid = some job)
    (h1 : job.status ≠ "completed") (h2 : job.status ≠ "failed")
    (hinv : jobsInv st.db.jobs) :
    jobsInv (ingestResults env jid results now st).2.db.jobs := by
  rcases ingestResults_jobs env jid results now st with h | h
  · rw [h]; exact hinv
  · rw [h]
    apply jobsInv_map_update st.db.jobs jid (completedUpdate results now)
      (fun j => rfl) hinv
    intro j hj hjid
    have hmem : job ∈ st.db.jobs := List.mem_of_find?_eq_some hfind
    have hjobid : job.id = jid := by simpa using List.find?_some hfind
    have hjj : j = job :=
      eq_of_mem_of_same_id st.db.jobs hinv.1 j hj job hmem (hjid.trans hjobid.symm)
    rw [hjj]
    have herr : job.error = none := by
      by_contra hne
      exact h2 ((hinv.2 job hmem).2.2 hne)
    exact ⟨Or.inr (Or.inr (Or.inl rfl)), fun _ => rfl,
      fun hne => absurd herr hne⟩

/-- A successful poll preserves the table invariant: every branch either
leaves the store unchanged or runs ingestion on a job whose stored
status was non-terminal. -/
lemma jobsInv_poll (env : EnvCfg) (jid : String) (cont : ContainerPoll) (now : Nat)
    (st : Store) (out : PollSnapshot × Store)
    (h : pollJob env jid cont now st = Except.ok out)
    (hinv : jobsInv st.db.jobs) : jobsInv out.2.db.jobs := by
  unfold pollJob at h
  cases hfind : findJob st.db jid with
  | none =>
    rw [hfind] at h
    exact absurd h (by simp)
  | some job =>
    rw [hfind] at h
    by_cases hterm : (job.status == "completed" || job.status == "failed") = true
    · simp only [hterm, if_true] at h
      simp only [Except.ok.injEq] at h
      rw [← h]
      exact hinv
    · have hterm' : (job.status == "completed" || job.status == "failed") = false :=
        eq_false_of_ne_true hterm
      simp only [hterm', Bool.false_eq_true, if_false] at h
      cases cont with
      | unreachable =>
        simp only [Except.ok.injEq] at h
        rw [← h]
        exact hinv
      | ok cs =>
        dsimp only at h
        have hnc : job.status ≠ "completed" ∧ job.status ≠ "failed" := by
          constructor <;> intro hx <;> apply hterm <;> simp [hx]
        by_cases hc : (cs.status == "completed") = true
        · rw [hc] at h
          cases hres : cs.results with
          | none =>
            rw [hres] at h
            simp only [Except.ok.injEq] at h
            rw [← h]
            exact hinv
          | some results =>
            rw [hres] at h
            dsimp only at h
            have hing := jobsInv_ingest env jid results now st job hfind hnc.1 hnc.2 hinv
            rcases hr : ingestResults env jid results now st with ⟨err, st4⟩
            rw [hr] at h
            have hst4 : st4.db.jobs = (ingestResults env jid results now st).2.db.jobs := by
              rw [hr]
            cases err with
            | some e =>
              simp only [Except.ok.injEq] at h
              rw [← h]
              show jobsInv st4.db.jobs
              rw [hst4]
              exact hing
            | none =>
              simp only [Except.ok.injEq] at h
              rw [← h]
              show jobsInv st4.db.jobs
              rw [hst4]
              exact hing
        · have hc' : (cs.status == "completed") = false := eq_false_of_ne_true hc
          rw [hc'] at h
          cases hres : cs.results <;> rw [hres] at h <;>
            simp only [Except.ok.injEq] at h <;> rw [← h] <;> exact hinv

/-- Claim C7: in every store reachable by serving submit and poll
requests (ingestion runs inside poll), every crawl_jobs row satisfies
the data-model invariant — its status is queued, running, completed or
failed; its score is non-null only when completed; its error is
non-null only when failed. -/
theorem C7_job_row_invariant (env : EnvCfg) (st : Store) (h : Reachable env st) :
    ∀ j ∈ st.db.jobs, jobInv j := by
  suffices hs : jobsInv st.db.jobs from hs.2
  induction h with
  | init => exact ⟨List.Pairwise.nil, by simp [emptyStore]⟩
  | step op now st' hr hf ih =>
    cases op with
    | submit url mp md h? s jid =>
      exact jobsInv_submit env url mp md h? s jid now st' hf ih
    | poll jid cont =>
      show jobsInv (stepOp env (Op.poll jid cont) now st').db.jobs
      unfold stepOp
      dsimp only
      cases hp : pollJob env jid cont now st' with
      | ok out => exact jobsInv_poll env jid cont now st' out hp ih
      | error e => exact ih

/-- The submit request of the C7 witness run; it produces exactly the
row jobRunning1. -/
def opSubmit1 : Op :=
  Op.submit "https://example.com" none none (some "example.com")
    StartOutcome.accepted "j1"

/-- Witness for C7: the row left in the store by one successful submit
into the empty deployment satisfies the invariant. -/
theorem C7_job_row_invariant_witness : jobInv jobRunning1 :=
  C7_job_row_invariant env0 (stepOp env0 opSubmit1 0 emptyStore)
    (Reachable.step opSubmit1 0 emptyStore Reachable.init
      (by intro j hj; simp [emptyStore] at hj))
    jobRunning1 (by decide)

end SeoAudit
